import Mathlib

/-!
# Verification of the CV Playground per-frame pipeline

Shallow embedding of `cv-playground/hooks/useComputerVision.ts`:
the gesture classifier and renderer of `drawRockPaper`, the face-filter
geometry of `drawClownNose`, the victory predicate of `drawVictory`,
the frame-loop step `processFrame` with its FPS accounting, and the
session initialization flow.

JavaScript numbers are modelled as exact rationals (`ℚ`); the square
root in the cheek-distance computation, which has no rational
normal form, is handled by quantifying over a nonnegative `d` whose
square equals the (rational) squared distance.
-/

namespace CVPlayground

/-- A normalized 2-D landmark as delivered by the detectors
(the `z` coordinate is never read by the hook, so it is omitted). -/
structure Landmark where
  x : ℚ
  y : ℚ
deriving DecidableEq

/-- A face landmark set: 478 points, index-addressed (nose tip = 4,
left cheek = 234, right cheek = 454). -/
abbrev FaceLms := Fin 478 → Landmark

/-- A hand landmark set: 21 points, index-addressed (wrist = 0,
thumb 3/4, index 6/8, middle 10/12, ring 14/16, pinky 18/20). -/
abbrev HandLms := Fin 21 → Landmark

/-- A body landmark set: 33 points, index-addressed (nose = 0,
left wrist = 15, right wrist = 16). -/
abbrev PoseLms := Fin 33 → Landmark

/-- The mode enum `CVMode` of `types/cv.ts`. -/
inductive CVMode
  | clownNose
  | rockPaper
  | victory
deriving DecidableEq

/-! ## Hand-gesture classification (`drawRockPaper`, lines 286–333) -/

/-- The gesture label assigned by `drawRockPaper`; the JS code uses the
strings `SCISSORS`, `ROCK`, `PAPER` and a `??? (count)` fallback that
carries the numeric count. -/
inductive Gesture
  | scissors
  | rock
  | paper
  | unknown (count : ℕ)
deriving DecidableEq

/-- `const indexExtended = landmarks[8].y < landmarks[6].y` (line 286). -/
def indexExtended (lms : HandLms) : Bool :=
  (lms 8).y < (lms 6).y

/-- `const middleExtended = landmarks[12].y < landmarks[10].y` (line 287). -/
def middleExtended (lms : HandLms) : Bool :=
  (lms 12).y < (lms 10).y

/-- `const ringExtended = landmarks[16].y < landmarks[14].y` (line 288). -/
def ringExtended (lms : HandLms) : Bool :=
  (lms 16).y < (lms 14).y

/-- `const pinkyExtended = landmarks[20].y < landmarks[18].y` (line 289). -/
def pinkyExtended (lms : HandLms) : Bool :=
  (lms 20).y < (lms 18).y

/-- `const thumbExtended = Math.abs(thumbTip.x - wrist.x) >
Math.abs(thumbPip.x - wrist.x)` with `wrist = landmarks[0]`,
`thumbTip = landmarks[4]`, `thumbPip = landmarks[3]` (lines 292–295). -/
def thumbExtended (lms : HandLms) : Bool :=
  |(lms 4).x - (lms 0).x| > |(lms 3).x - (lms 0).x|

/-- The running count of lines 298–303: one increment per extended
finger, in source order index, middle, ring, pinky, thumb. -/
def extendedCountOf (idx mid ring pinky thumb : Bool) : ℕ :=
  (if idx then 1 else 0) + (if mid then 1 else 0) + (if ring then 1 else 0) +
    (if pinky then 1 else 0) + (if thumb then 1 else 0)

/-- `extendedCount` computed from a hand landmark set. -/
def extendedCount (lms : HandLms) : ℕ :=
  extendedCountOf (indexExtended lms) (middleExtended lms) (ringExtended lms)
    (pinkyExtended lms) (thumbExtended lms)

/-- The gesture branch cascade of lines 311–333, in source order:
SCISSORS on the finger pattern, else ROCK on `extendedCount <= 1`,
else PAPER on `extendedCount === 5`, else the unknown label with the
count. -/
def classifyGestureOf (idx mid ring pinky thumb : Bool) : Gesture :=
  if idx && mid && !ring && !pinky then
    .scissors
  else if extendedCountOf idx mid ring pinky thumb ≤ 1 then
    .rock
  else if extendedCountOf idx mid ring pinky thumb = 5 then
    .paper
  else
    .unknown (extendedCountOf idx mid ring pinky thumb)

/-- Gesture classification of a hand landmark set, as performed inline
by `drawRockPaper`. -/
def classifyGesture (lms : HandLms) : Gesture :=
  classifyGestureOf (indexExtended lms) (middleExtended lms) (ringExtended lms)
    (pinkyExtended lms) (thumbExtended lms)

/-! ## Renderer outcomes for the three draw functions -/

/-- Observable outcome of `drawRockPaper`: either the centered
instructional prompt (no hand), or the gesture banner with the live
finger count. -/
inductive HandOverlay
  | prompt (text : String)
  | overlay (g : Gesture) (count : ℕ)
deriving DecidableEq

/-- `drawRockPaper` (lines 235–370), reduced to its observable
classification outcome: the length-zero check of line 241 guards every
landmark access; otherwise element 0 is classified. -/
def drawRockPaper (results : List HandLms) : HandOverlay :=
  match results with
  | [] => .prompt "Show your hand!"
  | lms :: _ => .overlay (classifyGesture lms) (extendedCount lms)

/-! ## Face filter (`drawClownNose`, lines 184–233) -/

/-- The squared denormalized cheek distance of lines 200–205:
`((rightCheek.x - leftCheek.x) * width)^2 +
((rightCheek.y - leftCheek.y) * height)^2` with
`leftCheek = landmarks[234]`, `rightCheek = landmarks[454]`.
The drawn radius is `clownRadius` of its square root. -/
def cheekDistanceSq (lms : FaceLms) (width height : ℚ) : ℚ :=
  (((lms 454).x - (lms 234).x) * width) ^ 2 +
    (((lms 454).y - (lms 234).y) * height) ^ 2

/-- `const radius = Math.max(10, Math.min(cheekDistance * 0.15, 80))`
(line 207), as a function of the cheek distance. -/
def clownRadius (cheekDistance : ℚ) : ℚ :=
  max 10 (min (cheekDistance * (15 / 100)) 80)

/-- Observable outcome of `drawClownNose`: nothing when no face is
detected (the bare `return` of line 190), otherwise the nose anchor in
pixels together with the squared cheek distance that determines the
radius. -/
inductive FaceOverlay
  | noFace
  | nose (noseX noseY distSq : ℚ)
deriving DecidableEq

/-- `drawClownNose` (lines 184–233), reduced to its observable
outcome: the length-zero check of line 190 guards every landmark
access; otherwise element 0 supplies nose tip (index 4) and cheeks. -/
def drawClownNose (results : List FaceLms) (width height : ℚ) : FaceOverlay :=
  match results with
  | [] => .noFace
  | lms :: _ =>
      .nose ((lms 4).x * width) ((lms 4).y * height) (cheekDistanceSq lms width height)

/-! ## Victory pose (`drawVictory`, lines 372–481) -/

/-- `const isVictory = leftWrist.y < nose.y && rightWrist.y < nose.y`
with `nose = landmarks[0]`, `leftWrist = landmarks[15]`,
`rightWrist = landmarks[16]` (lines 425–429). -/
def isVictory (lms : PoseLms) : Bool :=
  ((lms 15).y < (lms 0).y) && ((lms 16).y < (lms 0).y)

/-- Exchange the left-wrist (15) and right-wrist (16) landmarks of a
body landmark set, leaving every other point in place. -/
def swapWrists (lms : PoseLms) : PoseLms :=
  fun i => if i = 15 then lms 16 else if i = 16 then lms 15 else lms i

/-- Observable outcome of `drawVictory`: the instructional prompt when
no body is detected, otherwise the victory verdict for element 0. -/
inductive PoseOverlay
  | prompt (text : String)
  | overlay (victory : Bool)
deriving DecidableEq

/-- `drawVictory` (lines 372–481), reduced to its observable outcome:
the length-zero check of line 378 guards every landmark access. -/
def drawVictory (results : List PoseLms) : PoseOverlay :=
  match results with
  | [] => .prompt "Stand back so full body is visible"
  | lms :: _ => .overlay (isVictory lms)

/-! ## FPS accounting (`processFrame`, lines 120–128) -/

/-- The two mutable FPS refs: `frameCountRef` and `fpsTimeRef`
(`fpsTime = 0` is the JS-falsy "window not started" value). -/
structure FpsState where
  frameCount : ℕ
  fpsTime : ℚ
deriving DecidableEq

/-- Lines 121–128 of `processFrame`: increment the counter, lazily
start the window, and when the elapsed time reaches 1000 ms publish
`Math.round(frameCount * 1000 / elapsed)` and reset counter and window
start to the current timestamp. The second component is the value
passed to `setFps`, if any. -/
def fpsUpdate (s : FpsState) (timestamp : ℚ) : FpsState × Option ℤ :=
  let frameCount := s.frameCount + 1
  let fpsTime := if s.fpsTime = 0 then timestamp else s.fpsTime
  let elapsed := timestamp - fpsTime
  if 1000 ≤ elapsed then
    (⟨0, timestamp⟩, some (round ((frameCount : ℚ) * 1000 / elapsed)))
  else
    (⟨frameCount, fpsTime⟩, none)

/-- Fold `fpsUpdate` over a list of tick timestamps, collecting every
published FPS value in order. -/
def runFps (s : FpsState) : List ℚ → FpsState × List ℤ
  | [] => (s, [])
  | t :: ts =>
      let step := fpsUpdate s t
      let rest := runFps step.1 ts
      (rest.1, step.2.toList ++ rest.2)

/-! ## The frame-loop step (`processFrame`, lines 111–165) -/

/-- The per-tick inputs of `processFrame`: the closed-over props and
refs it reads, whether `canvas.getContext('2d')` succeeds, whether the
mode's detector ref is set and the video has data
(`readyState >= 2`), whether detection/drawing raises, and the
`requestAnimationFrame` timestamp. -/
structure TickEnv where
  enabled : Bool
  hasVideo : Bool
  hasCanvas : Bool
  isLoading : Bool
  hasCtx : Bool
  mode : CVMode
  modelReady : Bool
  videoReady : Bool
  throws : Bool
  timestamp : ℚ

/-- The mutable refs a tick reads and writes: the FPS refs and
`lastTimeRef`. -/
structure LoopState where
  fps : FpsState
  lastTime : ℚ
deriving DecidableEq

/-- Observable outcome of one `processFrame` tick: the refs after the
tick, the value given to `setFps` (if any), whether the canvas was
cleared, whether the catch block logged an error, and whether
`requestAnimationFrame` was called to schedule the next tick. -/
structure TickResult where
  state : LoopState
  fpsPublished : Option ℤ
  canvasCleared : Bool
  errorLogged : Bool
  scheduledNext : Bool
deriving DecidableEq

/-- The guard of line 112:
`!enabled || !videoElement || !canvasElement || isLoading`. -/
def idleGate (e : TickEnv) : Bool :=
  !e.enabled || !e.hasVideo || !e.hasCanvas || e.isLoading

/-- One tick of `processFrame` (lines 111–165). The idle branch
reschedules and returns; the null-context branch (line 118) returns
with no reschedule; otherwise the FPS refs are updated, the canvas is
cleared, detection and drawing run inside try/catch (`throws` raising
exactly when the detector ran), `lastTimeRef` is set, and the next
tick is scheduled. Totality of this function models the fact that the
catch of line 159 never lets an exception propagate out of a tick. -/
def processFrame (s : LoopState) (e : TickEnv) : TickResult :=
  if idleGate e then
    ⟨s, none, false, false, true⟩
  else if !e.hasCtx then
    ⟨s, none, false, false, false⟩
  else
    let step := fpsUpdate s.fps e.timestamp
    let detectionRan := e.modelReady && e.videoReady
    ⟨⟨step.1, e.timestamp⟩, step.2, true, detectionRan && e.throws, true⟩

/-! ## Session initialization (`initializeModels`, lines 41–103) -/

/-- The session state the initialization effect mutates: the
`isLoading` and `error` states and the three detector refs
(modelled as set/unset flags). -/
structure InitResult where
  isLoading : Bool
  error : Option String
  faceSet : Bool
  handSet : Bool
  poseSet : Bool
deriving DecidableEq

/-- `Promise.all` over the three detector constructions, modelled as
first failure wins (construction outcomes carry only success or an
error message, since the hook never inspects the detector values
during initialization). -/
def promiseAll3 (a b c : Except String Unit) : Except String Unit :=
  match a with
  | .error e => .error e
  | .ok _ =>
      match b with
      | .error e => .error e
      | .ok _ => c

/-- `initializeModels` (lines 41–103) as a function of the resolution
and construction outcomes and of the `isMounted` flag. Starting from
`isLoading = true, error = none`, a failure anywhere is caught and,
when mounted, surfaces the error message with `isLoading := false`
and no ref set; when every step succeeds and the hook is mounted, all
three refs are set and `isLoading := false` with no error; when
unmounted, nothing is written. -/
def initModels (mounted : Bool) (vision : Except String Unit)
    (face hand pose : Except String Unit) : InitResult :=
  match vision with
  | .error e =>
      if mounted then ⟨false, some e, false, false, false⟩
      else ⟨true, none, false, false, false⟩
  | .ok _ =>
      if !mounted then ⟨true, none, false, false, false⟩
      else
        match promiseAll3 face hand pose with
        | .error e => ⟨false, some e, false, false, false⟩
        | .ok _ => ⟨false, none, true, true, true⟩

/-! ## Concrete fixtures used by the witness theorems -/

/-- A hand with index and middle tips above their PIP joints, ring and
pinky tips below, and the thumb not extended (the scenario of the
spec's end-to-end test). -/
def scissorsHand : HandLms := fun i =>
  if i.val = 8 ∨ i.val = 12 then ⟨0, 3⟩
  else if i.val = 6 ∨ i.val = 10 ∨ i.val = 14 ∨ i.val = 18 then ⟨0, 5⟩
  else if i.val = 16 ∨ i.val = 20 then ⟨0, 6⟩
  else ⟨0, 0⟩

/-- A fully curled hand: every landmark coincides, so no finger and
not the thumb counts as extended. -/
def rockHand : HandLms := fun _ => ⟨0, 5⟩

/-- A degenerate face whose landmarks all coincide at the origin, so
the cheek distance is 0. -/
def zeroFace : FaceLms := fun _ => ⟨0, 0⟩

/-- A body with the nose at height 5 and every other landmark,
including both wrists, at height 3 (above the nose in image space). -/
def victoryPose : PoseLms := fun i => if i.val = 0 then ⟨0, 5⟩ else ⟨0, 3⟩

/-- A tick environment with processing disabled, so the idle gate of
line 112 fires. -/
def idleEnv : TickEnv :=
  ⟨false, true, true, false, true, .clownNose, true, true, false, 16⟩

/-- A fully active tick environment whose detection raises. -/
def throwEnv : TickEnv :=
  ⟨true, true, true, false, true, .rockPaper, true, true, true, 16⟩

/-- An active tick environment where `canvas.getContext` fails. -/
def noCtxEnv : TickEnv :=
  ⟨true, true, true, false, false, .clownNose, true, true, false, 16⟩

/-- An active tick environment with a 2D context available. -/
def ctxEnv : TickEnv :=
  ⟨true, true, true, false, true, .victory, true, true, false, 16⟩

/-! ## Claims about the gesture classifier -/

/-- C1: the gesture branches are evaluated in the exact order
SCISSORS, ROCK, PAPER, UNKNOWN with first match winning: the scissors
finger pattern yields SCISSORS regardless of thumb state or total
count, and only otherwise does `extendedCount ≤ 1` yield ROCK, then
`extendedCount = 5` yield PAPER, else UNKNOWN carrying the count. -/
theorem classifyGesture_precedence (lms : HandLms) :
    (indexExtended lms = true ∧ middleExtended lms = true ∧
        ringExtended lms = false ∧ pinkyExtended lms = false →
      classifyGesture lms = .scissors) ∧
    (¬(indexExtended lms = true ∧ middleExtended lms = true ∧
        ringExtended lms = false ∧ pinkyExtended lms = false) →
      (extendedCount lms ≤ 1 → classifyGesture lms = .rock) ∧
      (1 < extendedCount lms → extendedCount lms = 5 →
        classifyGesture lms = .paper) ∧
      (1 < extendedCount lms → extendedCount lms ≠ 5 →
        classifyGesture lms = .unknown (extendedCount lms))) := by
  unfold classifyGesture extendedCount
  generalize indexExtended lms = i
  generalize middleExtended lms = m
  generalize ringExtended lms = r
  generalize pinkyExtended lms = p
  generalize thumbExtended lms = t
  cases i <;> cases m <;> cases r <;> cases p <;> cases t <;> decide

/-- C1 witness: on the concrete scissors hand the pattern holds and
the classifier returns SCISSORS. -/
theorem classifyGesture_precedence_witness :
    classifyGesture scissorsHand = Gesture.scissors :=
  (classifyGesture_precedence scissorsHand).1 (by decide)

/-- C10: ROCK is returned exactly when `extendedCount ≤ 1` and PAPER
exactly when `extendedCount = 5`, because the scissors pattern forces
the count into {2, 3} and so never masks those branches. -/
theorem classifyGesture_rock_paper_exact (lms : HandLms) :
    (classifyGesture lms = .rock ↔ extendedCount lms ≤ 1) ∧
    (classifyGesture lms = .paper ↔ extendedCount lms = 5) ∧
    (indexExtended lms = true → middleExtended lms = true →
        ringExtended lms = false → pinkyExtended lms = false →
      extendedCount lms = 2 ∨ extendedCount lms = 3) := by
  unfold classifyGesture extendedCount
  generalize indexExtended lms = i
  generalize middleExtended lms = m
  generalize ringExtended lms = r
  generalize pinkyExtended lms = p
  generalize thumbExtended lms = t
  cases i <;> cases m <;> cases r <;> cases p <;> cases t <;> decide

/-- C10 witness: the fully curled hand has count 0 ≤ 1 and is
classified ROCK through the equivalence. -/
theorem classifyGesture_rock_paper_exact_witness :
    classifyGesture rockHand = Gesture.rock :=
  ((classifyGesture_rock_paper_exact rockHand).1).mpr (by
    norm_num [extendedCount, extendedCountOf, indexExtended, middleExtended,
      ringExtended, pinkyExtended, thumbExtended, rockHand])

/-! ## Claims about the face filter -/

/-- C3: for a detected face the overlay anchors at the denormalized
nose tip and its radius is clamp(0.15 × cheek distance, 10, 80):
writing d for the Euclidean cheek distance (the nonnegative root of
the squared denormalized distance), the radius equals
`min (max (0.15 d) 10) 80`, is exactly 10 when `0.15 d ≤ 10`, exactly
80 when `0.15 d ≥ 80`, and is monotone non-decreasing in d. -/
theorem clownRadius_clamp (lms : FaceLms) (rest : List FaceLms)
    (width height d : ℚ) (_hd0 : 0 ≤ d)
    (hdsq : d * d = cheekDistanceSq lms width height) :
    drawClownNose (lms :: rest) width height =
      .nose ((lms 4).x * width) ((lms 4).y * height) (d * d) ∧
    clownRadius d = min (max (d * (15 / 100)) 10) 80 ∧
    (d * (15 / 100) ≤ 10 → clownRadius d = 10) ∧
    (80 ≤ d * (15 / 100) → clownRadius d = 80) ∧
    (∀ d2, d ≤ d2 → clownRadius d ≤ clownRadius d2) := by
  refine ⟨by rw [drawClownNose, hdsq], ?_, ?_, ?_, ?_⟩
  · unfold clownRadius
    rw [max_min_distrib_left, max_comm (10 : ℚ)]
    congr 1
  · intro h
    unfold clownRadius
    rw [min_eq_left (h.trans (by norm_num))]
    exact max_eq_left h
  · intro h
    unfold clownRadius
    rw [min_eq_right h]
    exact max_eq_right (by norm_num)
  · intro d2 hdd
    unfold clownRadius
    have hmul : d * (15 / 100) ≤ d2 * (15 / 100) :=
      mul_le_mul_of_nonneg_right hdd (by norm_num)
    exact max_le_max le_rfl (min_le_min hmul le_rfl)

/-- C3 witness: at the degenerate face the cheek distance is 0,
`0.15 × 0 ≤ 10`, and the radius evaluates to the lower clamp 10. -/
theorem clownRadius_clamp_witness : clownRadius 0 = 10 :=
  (clownRadius_clamp zeroFace [] 1 1 0 le_rfl
    (by norm_num [cheekDistanceSq, zeroFace])).2.2.1 (by norm_num)

/-! ## Claims about the victory predicate -/

/-- C4: the victory classification holds exactly when both wrist
y-coordinates are strictly below the nose y-coordinate, is false as
soon as either wrist is at or below the nose, and is symmetric under
exchanging the two wrist landmarks. -/
theorem isVictory_spec (lms : PoseLms) :
    (isVictory lms = true ↔ (lms 15).y < (lms 0).y ∧ (lms 16).y < (lms 0).y) ∧
    ((lms 0).y ≤ (lms 15).y ∨ (lms 0).y ≤ (lms 16).y → isVictory lms = false) ∧
    isVictory (swapWrists lms) = isVictory lms := by
  refine ⟨by simp [isVictory], ?_, ?_⟩
  · intro h
    cases hv : isVictory lms
    · rfl
    · rw [isVictory] at hv
      simp only [Bool.and_eq_true, decide_eq_true_eq] at hv
      rcases h with h | h
      · exact absurd hv.1 (not_lt.mpr h)
      · exact absurd hv.2 (not_lt.mpr h)
  · simp [isVictory, swapWrists, Bool.and_comm]

/-- C4 witness: with the nose at height 5 and both wrists at height 3
the equivalence applies and the victory flag is true. -/
theorem isVictory_spec_witness : isVictory victoryPose = true :=
  (isVictory_spec victoryPose).1.mpr (by decide)

/-! ## Claims about the no-subject paths -/

/-- C8: for every mode an empty detection result takes the defined
no-subject path before any landmark access: the face renderer draws
nothing for the nose, the hand and pose renderers emit their
instructional prompts. -/
theorem draw_noSubject (faceResults : List FaceLms) (handResults : List HandLms)
    (poseResults : List PoseLms) (width height : ℚ)
    (hf : faceResults.length = 0) (hh : handResults.length = 0)
    (hp : poseResults.length = 0) :
    drawClownNose faceResults width height = .noFace ∧
    drawRockPaper handResults = .prompt "Show your hand!" ∧
    drawVictory poseResults = .prompt "Stand back so full body is visible" := by
  rw [List.length_eq_zero] at hf hh hp
  subst hf hh hp
  exact ⟨rfl, rfl, rfl⟩

/-- C8 witness: the hand renderer on the empty detection result shows
the hand prompt. -/
theorem draw_noSubject_witness :
    drawRockPaper ([] : List HandLms) = HandOverlay.prompt "Show your hand!" :=
  (draw_noSubject [] [] [] 1 1 rfl rfl rfl).2.1

/-! ## Claims about FPS accounting -/

/-- Helper: as long as the window-start invariant holds and every tick
timestamp stays below `t0 + 1000`, no FPS value is published. -/
theorem runFps_no_publish_aux (t0 : ℚ) (h0 : 0 < t0) :
    ∀ (ts : List ℚ) (s : FpsState),
      s.fpsTime = 0 ∨ t0 ≤ s.fpsTime →
      (∀ t ∈ ts, t0 ≤ t ∧ t < t0 + 1000) →
      (runFps s ts).2 = [] := by
  intro ts
  induction ts with
  | nil => intro s _ _; rfl
  | cons t ts ih =>
      intro s hs hts
      obtain ⟨ht0, htlt⟩ := hts t (List.mem_cons_self t ts)
      have hrest : ∀ u ∈ ts, t0 ≤ u ∧ u < t0 + 1000 := fun u hu =>
        hts u (List.mem_cons_of_mem t hu)
      have hftge : t0 ≤ (if s.fpsTime = 0 then t else s.fpsTime) := by
        rcases hs with hz | hge
        · rw [if_pos hz]; exact ht0
        · rw [if_neg (ne_of_gt (lt_of_lt_of_le h0 hge))]; exact hge
      have helapsed : ¬ (1000 ≤ t - (if s.fpsTime = 0 then t else s.fpsTime)) := by
        intro hc
        have : t - (if s.fpsTime = 0 then t else s.fpsTime) < 1000 := by linarith
        linarith
      have hstep : fpsUpdate s t =
          (⟨s.frameCount + 1, if s.fpsTime = 0 then t else s.fpsTime⟩, none) := by
        simp only [fpsUpdate]
        rw [if_neg helapsed]
      simp only [runFps, hstep, Option.toList, List.nil_append]
      exact ih _ (Or.inr hftge) hrest

/-- C5: FPS accounting increments the counter each counted tick,
lazily starts the window, publishes `round(counter * 1000 / elapsed)`
exactly when the elapsed time reaches 1000 ms — resetting the counter
to 0 and the window start to the current timestamp — and publishes
nothing during the first sub-1000 ms window. -/
theorem fpsUpdate_spec :
    (∀ (s : FpsState) (t : ℚ), s.fpsTime = 0 →
      fpsUpdate s t = (⟨s.frameCount + 1, t⟩, none)) ∧
    (∀ (s : FpsState) (t : ℚ), s.fpsTime ≠ 0 → t - s.fpsTime < 1000 →
      fpsUpdate s t = (⟨s.frameCount + 1, s.fpsTime⟩, none)) ∧
    (∀ (s : FpsState) (t : ℚ), s.fpsTime ≠ 0 → 1000 ≤ t - s.fpsTime →
      fpsUpdate s t =
        (⟨0, t⟩, some (round (((s.frameCount + 1 : ℕ) : ℚ) * 1000 / (t - s.fpsTime))))) ∧
    (∀ (ts : List ℚ) (t0 : ℚ), 0 < t0 →
      (∀ t ∈ ts, t0 ≤ t ∧ t < t0 + 1000) →
      (runFps ⟨0, 0⟩ ts).2 = []) := by
  refine ⟨?_, ?_, ?_, ?_⟩
  · intro s t hz
    simp only [fpsUpdate, hz, if_pos, sub_self]
    rw [if_neg (by norm_num : ¬ ((1000 : ℚ) ≤ 0))]
  · intro s t hne hlt
    simp only [fpsUpdate]
    rw [if_neg hne, if_neg (not_le.mpr hlt)]
  · intro s t hne hge
    simp only [fpsUpdate]
    rw [if_neg hne, if_pos hge]
  · intro ts t0 h0 hts
    exact runFps_no_publish_aux t0 h0 ts ⟨0, 0⟩ (Or.inl rfl) hts

/-- C5 witness: two ticks at 16 ms and 500 ms from a fresh session
publish no FPS value. -/
theorem fpsUpdate_spec_witness : (runFps ⟨0, 0⟩ [16, 500]).2 = [] :=
  fpsUpdate_spec.2.2.2 [16, 500] 16 (by norm_num) (by
    intro t ht
    simp only [List.mem_cons, List.not_mem_nil, or_false] at ht
    rcases ht with rfl | rfl <;> norm_num)

/-! ## Claims about the frame-loop step -/

/-- C6: idle skip ticks — disabled processing, missing frame source or
surface, models not ready, and likewise the failed-context return —
leave the FPS refs untouched and publish nothing; only a tick that
reaches the FPS-update step runs it, incrementing the counter. -/
theorem processFrame_idle_excluded (s : LoopState) (e : TickEnv) :
    (idleGate e = true →
      (processFrame s e).state = s ∧ (processFrame s e).fpsPublished = none) ∧
    (idleGate e = false → e.hasCtx = false →
      (processFrame s e).state = s ∧ (processFrame s e).fpsPublished = none) ∧
    (idleGate e = false → e.hasCtx = true →
      (processFrame s e).state.fps = (fpsUpdate s.fps e.timestamp).1 ∧
      (processFrame s e).fpsPublished = (fpsUpdate s.fps e.timestamp).2 ∧
      ((fpsUpdate s.fps e.timestamp).2 = none →
        (processFrame s e).state.fps.frameCount = s.fps.frameCount + 1)) := by
  refine ⟨?_, ?_, ?_⟩
  · intro h
    constructor <;> simp [processFrame, h]
  · intro h hc
    constructor <;> simp [processFrame, h, hc]
  · intro h hc
    refine ⟨by simp [processFrame, h, hc], by simp [processFrame, h, hc], ?_⟩
    intro hnone
    have hfps : (processFrame s e).state.fps = (fpsUpdate s.fps e.timestamp).1 := by
      simp [processFrame, h, hc]
    rw [hfps]
    simp only [fpsUpdate] at hnone ⊢
    by_cases hcond : 1000 ≤ e.timestamp -
        (if s.fps.fpsTime = 0 then e.timestamp else s.fps.fpsTime)
    · rw [if_pos hcond] at hnone
      simp at hnone
    · rw [if_neg hcond]

/-- C6 witness: an idle tick (processing disabled) leaves the refs
exactly as they were. -/
theorem processFrame_idle_excluded_witness :
    (processFrame ⟨⟨3, 7⟩, 0⟩ idleEnv).state = ⟨⟨3, 7⟩, 0⟩ :=
  ((processFrame_idle_excluded ⟨⟨3, 7⟩, 0⟩ idleEnv).1 rfl).1

/-- C7: a tick whose detection or drawing raises logs the error inside
the tick (the catch of lines 159–161) and still schedules the next
tick; `processFrame` being a total function, the exception never
propagates out of the tick. -/
theorem processFrame_error_isolated (s : LoopState) (e : TickEnv)
    (hidle : idleGate e = false) (hctx : e.hasCtx = true)
    (hm : e.modelReady = true) (hv : e.videoReady = true)
    (ht : e.throws = true) :
    (processFrame s e).errorLogged = true ∧
    (processFrame s e).scheduledNext = true := by
  constructor <;> simp [processFrame, hidle, hctx, hm, hv, ht]

/-- C7 witness: the throwing active tick logs and reschedules. -/
theorem processFrame_error_isolated_witness :
    (processFrame ⟨⟨0, 0⟩, 0⟩ throwEnv).errorLogged = true ∧
    (processFrame ⟨⟨0, 0⟩, 0⟩ throwEnv).scheduledNext = true :=
  processFrame_error_isolated ⟨⟨0, 0⟩, 0⟩ throwEnv rfl rfl rfl rfl rfl

/-- C2 counterexample: rescheduling is NOT unconditional. On a tick
where the canvas yields no 2D context (line 118 `if (!ctx) return;`),
`processFrame` returns without calling `requestAnimationFrame`, so the
loop self-terminates without explicit cancellation. -/
theorem processFrame_not_always_reschedules :
    ¬ ∀ (s : LoopState) (e : TickEnv), (processFrame s e).scheduledNext = true := by
  intro hall
  have h := hall ⟨⟨0, 0⟩, 0⟩ noCtxEnv
  simp [processFrame, noCtxEnv, idleGate] at h

/-- C2 amended: every tick schedules a next tick except the
null-context branch — on the idle branch and on every branch past the
context check (including ticks whose detection throws) the next tick
is scheduled. -/
theorem processFrame_reschedules (s : LoopState) (e : TickEnv)
    (h : idleGate e = true ∨ e.hasCtx = true) :
    (processFrame s e).scheduledNext = true := by
  rcases h with h | h
  · simp [processFrame, h]
  · by_cases hi : idleGate e
    · simp [processFrame, hi]
    · simp [processFrame, hi, h]

/-- C2 witness: an active tick with a context available reschedules. -/
theorem processFrame_reschedules_witness :
    (processFrame ⟨⟨0, 0⟩, 0⟩ ctxEnv).scheduledNext = true :=
  processFrame_reschedules ⟨⟨0, 0⟩, 0⟩ ctxEnv (Or.inr rfl)

/-! ## Claims about initialization -/

/-- C9: with the hook still mounted, initialization always ends
loading; it reports ready (no error) exactly when the resolver and all
three detector constructions succeed, the three refs are set all
together or not at all, and they are set exactly in the ready case —
no partial-ready state exists. -/
theorem initModels_all_or_nothing (vision face hand pose : Except String Unit) :
    (initModels true vision face hand pose).isLoading = false ∧
    ((initModels true vision face hand pose).error = none ↔
      vision = .ok () ∧ face = .ok () ∧ hand = .ok () ∧ pose = .ok ()) ∧
    ((initModels true vision face hand pose).faceSet =
        (initModels true vision face hand pose).handSet ∧
      (initModels true vision face hand pose).handSet =
        (initModels true vision face hand pose).poseSet) ∧
    ((initModels true vision face hand pose).faceSet = true ↔
      (initModels true vision face hand pose).error = none) := by
  rcases vision with e | ⟨⟩ <;> rcases face with e1 | ⟨⟩ <;>
    rcases hand with e2 | ⟨⟩ <;> rcases pose with e3 | ⟨⟩ <;>
      simp [initModels, promiseAll3]

/-- C9 witness: when everything constructs, the session is ready with
no error. -/
theorem initModels_all_or_nothing_witness :
    (initModels true (.ok ()) (.ok ()) (.ok ()) (.ok ())).error = none :=
  (initModels_all_or_nothing (.ok ()) (.ok ()) (.ok ()) (.ok ())).2.1.mpr
    ⟨rfl, rfl, rfl, rfl⟩

end CVPlayground
